import Mathlib

/-!
Verification of the client-side user store (`web/src/store/user.ts`).

JavaScript plain objects (`Record<string, T>`) are modelled as association
lists `List (String × T)` with unique keys in insertion order; `lookupKey`,
`setKey`, `delKey`, `objKeys`, `objValues` and `objMerge` mirror property
read, property assignment, `delete`, `Object.keys`, `Object.values` and
object spread.  Every async store operation is embedded as a pure function
from the current state and an oracle for the remote call's outcome to the
list of issued requests, the resulting state, and an `Except` result; a
thrown exception is `Except.error`, and remote failures are surfaced as
`Err.remote` while locally raised `Error`s are `Err.thrown`.
-/

/-- Property read `m[k]`: the value at the first matching key, if any. -/
def lookupKey {α : Type} : List (String × α) → String → Option α
  | [], _ => none
  | (k, v) :: rest, key => if k = key then some v else lookupKey rest key

/-- Property assignment `m[k] = v` (also used for spread `{...m, [k]: v}`):
replace the binding in place if the key exists, otherwise append. -/
def setKey {α : Type} : List (String × α) → String → α → List (String × α)
  | [], key, v => [(key, v)]
  | (k, w) :: rest, key, v =>
    if k = key then (k, v) :: rest else (k, w) :: setKey rest key v

/-- Models `delete m[k]`: remove the binding with the given key. -/
def delKey {α : Type} : List (String × α) → String → List (String × α)
  | [], _ => []
  | (k, w) :: rest, key =>
    if k = key then delKey rest key else (k, w) :: delKey rest key

/-- Models `Object.keys(m)` in insertion order. -/
def objKeys {α : Type} (m : List (String × α)) : List String :=
  m.map Prod.fst

/-- Models `Object.values(m)` in insertion order. -/
def objValues {α : Type} (m : List (String × α)) : List α :=
  m.map Prod.snd

/-- Object spread `{...a, ...b}`: `b`'s bindings override `a`'s. -/
def objMerge {α : Type} (a b : List (String × α)) : List (String × α) :=
  b.foldl (fun acc kv => setKey acc kv.1 kv.2) a

/-- Models `User` message: resource name, username and a display field. -/
structure User where
  name : String
  username : String
  displayName : String
  deriving Repr, DecidableEq

/-- Caller-supplied `Partial<User>`. -/
structure UserPatch where
  name : Option String := none
  username : Option String := none
  displayName : Option String := none
  deriving Repr, DecidableEq

/-- Models `UserStats` message: account name and the per-tag counts. -/
structure UserStats where
  name : String
  tagCount : List (String × Nat)
  deriving Repr, DecidableEq

/-- Models `Shortcut` message. -/
structure Shortcut where
  name : String
  title : String
  deriving Repr, DecidableEq

/-- Models `Inbox` message. -/
structure Inbox where
  name : String
  status : String
  deriving Repr, DecidableEq

/-- Caller-supplied `Partial<Inbox>`. -/
structure InboxPatch where
  name : Option String := none
  status : Option String := none
  deriving Repr, DecidableEq

/-- Full `UserSetting` message (every field present). -/
structure UserSetting where
  name : String
  locale : String
  appearance : String
  deriving Repr, DecidableEq

/-- Models `Partial<UserSetting>`: a JS object where any field may be absent. -/
structure UserSettingPatch where
  name : Option String := none
  locale : Option String := none
  appearance : Option String := none
  deriving Repr, DecidableEq

/-- Models `UserSetting.fromPartial`: absent fields are filled with proto defaults. -/
def UserSetting.fromPatch (p : UserSettingPatch) : UserSetting :=
  { name := p.name.getD ""
    locale := p.locale.getD ""
    appearance := p.appearance.getD "" }

/-- Spread `{...prior, ...resp}` where `prior` is the (possibly absent) full
settings object and `resp` the response object: a field present in `resp`
wins, otherwise the prior field survives. -/
def spreadSetting (prior : Option UserSetting) (resp : UserSettingPatch) :
    UserSettingPatch :=
  { name := resp.name.orElse fun _ => prior.map UserSetting.name
    locale := resp.locale.orElse fun _ => prior.map UserSetting.locale
    appearance := resp.appearance.orElse fun _ => prior.map UserSetting.appearance }

/-- The observable `LocalState` container of the user store. -/
structure LocalState where
  currentUser : Option String := none
  userSetting : Option UserSetting := none
  shortcuts : List Shortcut := []
  inboxes : List Inbox := []
  userMapByName : List (String × User) := []
  userStatsByName : List (String × UserStats) := []
  statsStateId : String := "1"
  deriving Repr, DecidableEq

/-- The `tagCount` getter: recomputed from `userStatsByName` on each access,
accumulating `tagCount[tag] = (tagCount[tag] || 0) + stats.tagCount[tag]`
over all cached stats entries. -/
def LocalState.tagCount (st : LocalState) : List (String × Nat) :=
  (objValues st.userStatsByName).foldl
    (fun acc stats =>
      (objKeys stats.tagCount).foldl
        (fun acc2 tag =>
          setKey acc2 tag
            ((lookupKey acc2 tag).getD 0 + (lookupKey stats.tagCount tag).getD 0))
        acc)
    []

/-- The `currentUserStats` getter. -/
def LocalState.currentUserStats (st : LocalState) : Option UserStats :=
  match st.currentUser with
  | none => none
  | some cu => lookupKey st.userStatsByName cu

theorem lookupKey_setKey_self {α : Type} (m : List (String × α)) (k : String) (v : α) :
    lookupKey (setKey m k v) k = some v := by
  induction m with
  | nil => simp [setKey, lookupKey]
  | cons hd tl ih =>
    by_cases h : hd.1 = k <;> simp [setKey, lookupKey, h, ih]

theorem lookupKey_setKey_ne {α : Type} (m : List (String × α)) (k k' : String) (v : α)
    (h : k ≠ k') : lookupKey (setKey m k v) k' = lookupKey m k' := by
  induction m with
  | nil => simp [setKey, lookupKey, h]
  | cons hd tl ih =>
    by_cases hk : hd.1 = k
    · have hne : hd.1 ≠ k' := by rw [hk]; exact h
      simp [setKey, lookupKey, hk, hne, h]
    · by_cases hk' : hd.1 = k' <;> simp [setKey, lookupKey, hk, hk', Ne.symm h, ih]

theorem lookupKey_eq_none_of_not_mem {α : Type} (m : List (String × α)) (k : String)
    (h : k ∉ objKeys m) : lookupKey m k = none := by
  induction m with
  | nil => rfl
  | cons hd tl ih =>
    rw [objKeys, List.map_cons, List.mem_cons] at h
    push_neg at h
    rw [lookupKey, if_neg fun hh => h.1 hh.symm]
    exact ih (by rw [objKeys]; exact h.2)

/-- The inner loop of the `tagCount` getter, evaluated at one tag. -/
theorem tagFold_lookup (m : List (String × Nat)) (ks : List String)
    (hnd : ks.Nodup) (acc : List (String × Nat)) (tag : String) :
    (lookupKey
      (ks.foldl
        (fun a t => setKey a t ((lookupKey a t).getD 0 + (lookupKey m t).getD 0))
        acc) tag).getD 0
    = (lookupKey acc tag).getD 0 + (if tag ∈ ks then (lookupKey m tag).getD 0 else 0) := by
  induction ks generalizing acc with
  | nil => simp
  | cons k rest ih =>
    have hk : k ∉ rest := (List.nodup_cons.mp hnd).1
    have hrest : rest.Nodup := (List.nodup_cons.mp hnd).2
    rw [List.foldl_cons, ih hrest]
    by_cases htag : tag = k
    · subst htag
      simp [lookupKey_setKey_self, hk, Nat.add_assoc]
    · rw [lookupKey_setKey_ne _ _ _ _ (fun hh => htag hh.symm)]
      simp [List.mem_cons, htag]

/-- The outer loop of the `tagCount` getter, evaluated at one tag. -/
theorem statsFold_lookup (l : List UserStats)
    (h : ∀ s ∈ l, (objKeys s.tagCount).Nodup) (acc : List (String × Nat)) (tag : String) :
    (lookupKey
      (l.foldl
        (fun a stats =>
          (objKeys stats.tagCount).foldl
            (fun a2 t =>
              setKey a2 t ((lookupKey a2 t).getD 0 + (lookupKey stats.tagCount t).getD 0))
            a)
        acc) tag).getD 0
    = (lookupKey acc tag).getD 0 + (l.map fun s => (lookupKey s.tagCount tag).getD 0).sum := by
  induction l generalizing acc with
  | nil => simp
  | cons s rest ih =>
    rw [List.foldl_cons, ih (fun x hx => h x (List.mem_cons_of_mem _ hx))]
    rw [tagFold_lookup _ _ (h s (List.mem_cons_self _ _))]
    by_cases hmem : tag ∈ objKeys s.tagCount
    · simp [hmem, Nat.add_assoc]
    · simp [hmem, lookupKey_eq_none_of_not_mem _ _ hmem]

/-- Claim C1: reading the tag-count aggregate returns, for every tag, exactly the
sum of that tag's counts across every cached `UsageStats` entry; the
aggregate is a getter over the current cache contents (no stored field). -/
theorem tagCount_is_fieldwise_sum (st : LocalState) (tag : String)
    (h : ∀ s ∈ objValues st.userStatsByName, (objKeys s.tagCount).Nodup) :
    (lookupKey st.tagCount tag).getD 0
      = ((objValues st.userStatsByName).map
          fun s => (lookupKey s.tagCount tag).getD 0).sum := by
  unfold LocalState.tagCount
  rw [statsFold_lookup _ h]
  simp [lookupKey]

/-- Seeded state for the tag-count aggregate: two stats entries with an
overlapping tag and non-overlapping tags. -/
def tagSeedState : LocalState :=
  { userStatsByName :=
      [("users/1", { name := "users/1", tagCount := [("shared", 2), ("onlyA", 1)] }),
       ("users/2", { name := "users/2", tagCount := [("shared", 3), ("onlyB", 4)] })] }

theorem tagCount_is_fieldwise_sum_witness :
    (lookupKey tagSeedState.tagCount "shared").getD 0
      = ((objValues tagSeedState.userStatsByName).map
          fun s => (lookupKey s.tagCount "shared").getD 0).sum :=
  tagCount_is_fieldwise_sum tagSeedState "shared" (by decide)

/-- Requests issued to the remote service clients. -/
inductive Request where
  | getUser (name : String)
  | searchUsers (query : String) (pageSize : Nat)
  | listUsers
  | updateUserReq (user : UserPatch) (updateMask : List String)
  | deleteUserReq (name : String)
  | updateUserSettingReq (setting : UserSettingPatch) (updateMask : List String)
  | getUserSettingReq (name : String)
  | listShortcuts (parent : String)
  | listInboxes (parent : String)
  | updateInboxReq (inbox : InboxPatch) (updateMask : List String)
  | deleteInboxReq (name : String)
  | listAllUserStats
  | getUserStatsReq (name : String)
  | getCurrentSession
  deriving Repr, DecidableEq

/-- Errors an operation can propagate: opaque remote failures surfaced
unchanged, and locally raised `Error(msg)` exceptions. -/
inductive Err where
  | remote (msg : String)
  | thrown (msg : String)
  deriving Repr, DecidableEq

/-- Outcome of one store operation: the requests it issued, the state after
it finished (or after the exception escaped), and its result. -/
structure OpOut (α : Type) where
  requests : List Request
  state : LocalState
  result : Except Err α

/-- Models `getOrFetchUserByName`: return the cached user on a hit; on a miss issue
`getUser` and insert the response under the requested name. -/
def getOrFetchUserByName (st : LocalState) (name : String)
    (remote : Except String User) : OpOut User :=
  match lookupKey st.userMapByName name with
  | some u => { requests := [], state := st, result := .ok u }
  | none =>
    match remote with
    | .error e =>
      { requests := [.getUser name], state := st, result := .error (.remote e) }
    | .ok user =>
      { requests := [.getUser name]
        state := { st with userMapByName := setKey st.userMapByName name user }
        result := .ok user }

/-- Models `getOrFetchUserByUsername`: linear scan of cached users by username; on a
miss issue `searchUsers` with page size 10, throw if no exact match, else
insert under the response's own resource name. -/
def getOrFetchUserByUsername (st : LocalState) (username : String)
    (remote : Except String (List User)) : OpOut User :=
  match (objValues st.userMapByName).find? (fun u => u.username == username) with
  | some u => { requests := [], state := st, result := .ok u }
  | none =>
    match remote with
    | .error e =>
      { requests := [.searchUsers username 10], state := st, result := .error (.remote e) }
    | .ok users =>
      match users.find? (fun u => u.username == username) with
      | none =>
        { requests := [.searchUsers username 10]
          state := st
          result := .error (.thrown ("User with username " ++ username ++ " not found")) }
      | some user =>
        { requests := [.searchUsers username 10]
          state := { st with userMapByName := setKey st.userMapByName user.name user }
          result := .ok user }

/-- Models `getUserByName`: synchronous cache-only read. -/
def getUserByName (st : LocalState) (name : String) : Option User :=
  lookupKey st.userMapByName name

/-- Models `fetchUsers`: `listUsers`, then insert every returned user keyed by its
own name into the existing map. -/
def fetchUsers (st : LocalState) (remote : Except String (List User)) :
    OpOut (List User) :=
  match remote with
  | .error e =>
    { requests := [.listUsers], state := st, result := .error (.remote e) }
  | .ok users =>
    { requests := [.listUsers]
      state := { st with
        userMapByName := users.foldl (fun m u => setKey m u.name u) st.userMapByName }
      result := .ok users }

/-- Models `updateUser`: remote update, then replace the entry at the response's
name wholesale with the authoritative response. -/
def updateUser (st : LocalState) (user : UserPatch) (updateMask : List String)
    (remote : Except String User) : OpOut Unit :=
  match remote with
  | .error e =>
    { requests := [.updateUserReq user updateMask], state := st, result := .error (.remote e) }
  | .ok updatedUser =>
    { requests := [.updateUserReq user updateMask]
      state := { st with
        userMapByName := setKey st.userMapByName updatedUser.name updatedUser }
      result := .ok () }

/-- Models `deleteUser`: remote delete, then local removal of exactly that key. -/
def deleteUser (st : LocalState) (name : String)
    (remote : Except String Unit) : OpOut Unit :=
  match remote with
  | .error e =>
    { requests := [.deleteUserReq name], state := st, result := .error (.remote e) }
  | .ok _ =>
    { requests := [.deleteUserReq name]
      state := { st with userMapByName := delKey st.userMapByName name }
      result := .ok () }

/-- Models `updateUserSetting`: precondition check, force the resource name to the
current user, send, and merge the response field-wise onto prior settings. -/
def updateUserSetting (st : LocalState) (userSetting : UserSettingPatch)
    (updateMask : List String) (remote : Except String UserSettingPatch) : OpOut Unit :=
  match st.currentUser with
  | none => { requests := [], state := st, result := .error (.thrown "No current user") }
  | some cu =>
    let settingWithName : UserSettingPatch := { userSetting with name := some cu }
    match remote with
    | .error e =>
      { requests := [.updateUserSettingReq settingWithName updateMask]
        state := st
        result := .error (.remote e) }
    | .ok updatedUserSetting =>
      { requests := [.updateUserSettingReq settingWithName updateMask]
        state := { st with
          userSetting :=
            some (UserSetting.fromPatch (spreadSetting st.userSetting updatedUserSetting)) }
        result := .ok () }

/-- Models `fetchShortcuts`: no-op without a current user; otherwise list and
replace the cached shortcuts wholesale. -/
def fetchShortcuts (st : LocalState) (remote : Except String (List Shortcut)) :
    OpOut Unit :=
  match st.currentUser with
  | none => { requests := [], state := st, result := .ok () }
  | some cu =>
    match remote with
    | .error e =>
      { requests := [.listShortcuts cu], state := st, result := .error (.remote e) }
    | .ok shortcuts =>
      { requests := [.listShortcuts cu]
        state := { st with shortcuts := shortcuts }
        result := .ok () }

/-- Models `fetchInboxes`: throws without a current user; otherwise list and
replace the cached inboxes wholesale. -/
def fetchInboxes (st : LocalState) (remote : Except String (List Inbox)) :
    OpOut Unit :=
  match st.currentUser with
  | none =>
    { requests := [], state := st, result := .error (.thrown "No current user available") }
  | some cu =>
    match remote with
    | .error e =>
      { requests := [.listInboxes cu], state := st, result := .error (.remote e) }
    | .ok inboxes =>
      { requests := [.listInboxes cu]
        state := { st with inboxes := inboxes }
        result := .ok () }

/-- Models `updateInbox`: remote update, then map over the cached sequence
replacing the item whose name matches the response; returns the response. -/
def updateInbox (st : LocalState) (inbox : InboxPatch) (updateMask : List String)
    (remote : Except String Inbox) : OpOut Inbox :=
  match remote with
  | .error e =>
    { requests := [.updateInboxReq inbox updateMask], state := st, result := .error (.remote e) }
  | .ok updatedInbox =>
    { requests := [.updateInboxReq inbox updateMask]
      state := { st with
        inboxes := st.inboxes.map fun i =>
          if i.name = updatedInbox.name then updatedInbox else i }
      result := .ok updatedInbox }

/-- Models `deleteInbox`: remote delete, then filter the item out of the cache. -/
def deleteInbox (st : LocalState) (name : String)
    (remote : Except String Unit) : OpOut Unit :=
  match remote with
  | .error e =>
    { requests := [.deleteInboxReq name], state := st, result := .error (.remote e) }
  | .ok _ =>
    { requests := [.deleteInboxReq name]
      state := { st with inboxes := st.inboxes.filter fun i => i.name != name }
      result := .ok () }

/-- Models `fetchUserStats`: with no argument list all stats, with an argument get
one account's stats; spread the fresh entries over the existing map. -/
def fetchUserStats (st : LocalState) (user : Option String)
    (remoteAll : Except String (List UserStats))
    (remoteOne : Except String UserStats) : OpOut Unit :=
  match user with
  | none =>
    match remoteAll with
    | .error e =>
      { requests := [.listAllUserStats], state := st, result := .error (.remote e) }
    | .ok userStats =>
      { requests := [.listAllUserStats]
        state := { st with
          userStatsByName :=
            objMerge st.userStatsByName
              (userStats.foldl (fun m s => setKey m s.name s) []) }
        result := .ok () }
  | some u =>
    match remoteOne with
    | .error e =>
      { requests := [.getUserStatsReq u], state := st, result := .error (.remote e) }
    | .ok stats =>
      { requests := [.getUserStatsReq u]
        state := { st with
          userStatsByName := objMerge st.userStatsByName (setKey [] u stats) }
        result := .ok () }

/-- Models `setStatsStateId`. -/
def setStatsStateId (st : LocalState) (id : String) : LocalState :=
  { st with statsStateId := id }

/-- The workspace store fields `initialUserStore` touches. -/
structure WorkspaceState where
  locale : Option String := none
  appearance : Option String := none
  deriving Repr, DecidableEq

/-- Models `initialUserStore`: resolve the session; on no user reset the store; on
a user fetch settings, seed the store and propagate locale and appearance;
on any exception fall back to `findNearestMatchedLanguage(navigator.language)`
and set only the workspace locale. -/
def initialUserStore (st : LocalState) (ws : WorkspaceState)
    (sessionRemote : Except String (Option User))
    (settingRemote : Except String UserSettingPatch)
    (findNearestMatchedLanguage : String → String)
    (navigatorLanguage : String) :
    List Request × LocalState × WorkspaceState :=
  match sessionRemote with
  | .error _ =>
    ([.getCurrentSession], st,
     { ws with locale := some (findNearestMatchedLanguage navigatorLanguage) })
  | .ok none =>
    ([.getCurrentSession],
     { st with currentUser := none, userSetting := none, userMapByName := [] },
     ws)
  | .ok (some currentUser) =>
    match settingRemote with
    | .error _ =>
      ([.getCurrentSession, .getUserSettingReq currentUser.name], st,
       { ws with locale := some (findNearestMatchedLanguage navigatorLanguage) })
    | .ok userSetting =>
      ([.getCurrentSession, .getUserSettingReq currentUser.name],
       { st with
          currentUser := some currentUser.name
          userSetting := some (UserSetting.fromPatch userSetting)
          userMapByName := setKey [] currentUser.name currentUser },
       { ws with locale := userSetting.locale, appearance := userSetting.appearance })

/-- Claim C2: for a name already cached, `getOrFetchUserByName` issues zero
remote calls, returns the cached value unchanged, and leaves the state
container unchanged. -/
theorem getOrFetchUserByName_cached (st : LocalState) (n : String) (u : User)
    (remote : Except String User) (h : lookupKey st.userMapByName n = some u) :
    (getOrFetchUserByName st n remote).requests = []
    ∧ (getOrFetchUserByName st n remote).state = st
    ∧ (getOrFetchUserByName st n remote).result = .ok u := by
  simp [getOrFetchUserByName, h]

/-- A cached user used to exercise the cache-hit path. -/
def userC2 : User := { name := "users/1", username := "alice", displayName := "Alice" }

/-- A state whose account map already holds `userC2`. -/
def stC2 : LocalState := { userMapByName := [("users/1", userC2)] }

theorem getOrFetchUserByName_cached_witness :
    (getOrFetchUserByName stC2 "users/1" (.error "down")).requests = []
    ∧ (getOrFetchUserByName stC2 "users/1" (.error "down")).state = stC2
    ∧ (getOrFetchUserByName stC2 "users/1" (.error "down")).result = .ok userC2 :=
  getOrFetchUserByName_cached stC2 "users/1" userC2 (.error "down") (by decide)

/-- Claim C3: when `getCurrentSession` throws during bootstrap, the resulting
state (starting from the uninitialized one) has no current account and no
settings — in fact it is untouched — and the only outward propagation is the
workspace locale derived via `findNearestMatchedLanguage(navigator.language)`. -/
theorem initialUserStore_session_error (st : LocalState) (ws : WorkspaceState)
    (e : String) (settingRemote : Except String UserSettingPatch)
    (fnml : String → String) (navLang : String)
    (h1 : st.currentUser = none) (h2 : st.userSetting = none) :
    (initialUserStore st ws (.error e) settingRemote fnml navLang).2.1.currentUser = none
    ∧ (initialUserStore st ws (.error e) settingRemote fnml navLang).2.1.userSetting = none
    ∧ (initialUserStore st ws (.error e) settingRemote fnml navLang).2.1 = st
    ∧ (initialUserStore st ws (.error e) settingRemote fnml navLang).2.2
        = { ws with locale := some (fnml navLang) } := by
  simp [initialUserStore, h1, h2]

theorem initialUserStore_session_error_witness :
    (initialUserStore {} { locale := some "zz", appearance := some "dark" }
        (.error "auth expired") (.ok {}) (fun _ => "en") "en-US").2.1.currentUser = none
    ∧ (initialUserStore {} { locale := some "zz", appearance := some "dark" }
        (.error "auth expired") (.ok {}) (fun _ => "en") "en-US").2.1.userSetting = none
    ∧ (initialUserStore {} { locale := some "zz", appearance := some "dark" }
        (.error "auth expired") (.ok {}) (fun _ => "en") "en-US").2.1 = {}
    ∧ (initialUserStore {} { locale := some "zz", appearance := some "dark" }
        (.error "auth expired") (.ok {}) (fun _ => "en") "en-US").2.2
        = { locale := some "en", appearance := some "dark" } :=
  initialUserStore_session_error {} { locale := some "zz", appearance := some "dark" }
    "auth expired" (.ok {}) (fun _ => "en") "en-US" rfl rfl

/-- Claim C7: on a cache miss, a successful `getOrFetchUserByName` issues
exactly one `getUser` fetch, inserts the fetched entity keyed by the
response's own name (required to equal the requested name), and returns it. -/
theorem getOrFetchUserByName_miss (st : LocalState) (n : String) (user : User)
    (hmiss : lookupKey st.userMapByName n = none) (hname : user.name = n) :
    (getOrFetchUserByName st n (.ok user)).requests = [.getUser n]
    ∧ lookupKey (getOrFetchUserByName st n (.ok user)).state.userMapByName user.name
        = some user
    ∧ (getOrFetchUserByName st n (.ok user)).result = .ok user := by
  subst hname
  simp [getOrFetchUserByName, hmiss, lookupKey_setKey_self]

/-- The user fetched on the miss path. -/
def userC7 : User := { name := "users/7", username := "grace", displayName := "Grace" }

theorem getOrFetchUserByName_miss_witness :
    (getOrFetchUserByName {} "users/7" (.ok userC7)).requests = [.getUser "users/7"]
    ∧ lookupKey (getOrFetchUserByName {} "users/7" (.ok userC7)).state.userMapByName
        userC7.name = some userC7
    ∧ (getOrFetchUserByName {} "users/7" (.ok userC7)).result = .ok userC7 :=
  getOrFetchUserByName_miss {} "users/7" userC7 rfl rfl

/-- Claim C8: after a successful `updateUser`, the entry retrievable via
`getUserByName` at the response's name is the server's authoritative
response itself. -/
theorem updateUser_authoritative (st : LocalState) (up : UserPatch)
    (mask : List String) (resp : User) :
    getUserByName (updateUser st up mask (.ok resp)).state resp.name = some resp := by
  simp [updateUser, getUserByName, lookupKey_setKey_self]

/-- Claim C9: with no cached username match, `getOrFetchUserByUsername`
searches with page size 10 and, when no returned result's username equals
the query, throws a not-found error and leaves the cache unmodified. -/
theorem getOrFetchUserByUsername_notFound (st : LocalState) (username : String)
    (users : List User)
    (hmiss : (objValues st.userMapByName).find? (fun u => u.username == username) = none)
    (hnone : ∀ u ∈ users, u.username ≠ username) :
    (getOrFetchUserByUsername st username (.ok users)).requests
        = [.searchUsers username 10]
    ∧ (getOrFetchUserByUsername st username (.ok users)).state = st
    ∧ (getOrFetchUserByUsername st username (.ok users)).result
        = .error (.thrown ("User with username " ++ username ++ " not found")) := by
  have hfind : users.find? (fun u => u.username == username) = none := by
    rw [List.find?_eq_none]
    intro u hu
    simpa using hnone u hu
  simp [getOrFetchUserByUsername, hmiss, hfind]

/-- A cached user whose username does not match the queried one. -/
def userC9 : User := { name := "users/1", username := "alice", displayName := "Alice" }

/-- A search result whose username also does not match the queried one. -/
def userC9found : User := { name := "users/3", username := "carol", displayName := "Carol" }

/-- State holding only `userC9`. -/
def stC9 : LocalState := { userMapByName := [("users/1", userC9)] }

theorem getOrFetchUserByUsername_notFound_witness :
    (getOrFetchUserByUsername stC9 "bob" (.ok [userC9found])).requests
        = [.searchUsers "bob" 10]
    ∧ (getOrFetchUserByUsername stC9 "bob" (.ok [userC9found])).state = stC9
    ∧ (getOrFetchUserByUsername stC9 "bob" (.ok [userC9found])).result
        = .error (.thrown ("User with username " ++ "bob" ++ " not found")) :=
  getOrFetchUserByUsername_notFound stC9 "bob" [userC9found] (by decide) (by decide)

theorem list_map_eq_self {α : Type} (l : List α) (f : α → α) (h : ∀ a ∈ l, f a = a) :
    l.map f = l := by
  induction l with
  | nil => rfl
  | cons a rest ih =>
    rw [List.map_cons, h a (List.mem_cons_self _ _),
      ih fun x hx => h x (List.mem_cons_of_mem _ hx)]

/-- Claim C10: a successful `updateInbox` whose response name matches no
cached inbox leaves the cached inboxes sequence (and the whole state)
completely unchanged while still returning the response. -/
theorem updateInbox_no_match (st : LocalState) (ip : InboxPatch) (mask : List String)
    (resp : Inbox) (h : ∀ i ∈ st.inboxes, i.name ≠ resp.name) :
    (updateInbox st ip mask (.ok resp)).state = st
    ∧ (updateInbox st ip mask (.ok resp)).result = .ok resp := by
  have hmap : st.inboxes.map (fun i => if i.name = resp.name then resp else i) = st.inboxes :=
    list_map_eq_self _ _ fun i hi => if_neg (h i hi)
  exact ⟨by simp [updateInbox, hmap], rfl⟩

/-- A cached inbox item whose name differs from the updated one. -/
def inboxC10 : Inbox := { name := "inboxes/1", status := "UNREAD" }

/-- The authoritative update response for an item absent from the cache. -/
def inboxC10resp : Inbox := { name := "inboxes/99", status := "ARCHIVED" }

/-- State holding only `inboxC10`. -/
def stC10 : LocalState := { inboxes := [inboxC10] }

theorem updateInbox_no_match_witness :
    (updateInbox stC10 {} ["status"] (.ok inboxC10resp)).state = stC10
    ∧ (updateInbox stC10 {} ["status"] (.ok inboxC10resp)).result = .ok inboxC10resp :=
  updateInbox_no_match stC10 {} ["status"] inboxC10resp (by decide)

/-- Claim C5: a successful `updateUserSetting` sends the current account's
name as the resource name regardless of the caller-supplied one, and the
merge-back is field-wise: every field the response omits keeps its prior
cached value. -/
theorem updateUserSetting_forced_name_fieldwise_merge (st : LocalState)
    (sp : UserSettingPatch) (mask : List String) (cu : String)
    (resp : UserSettingPatch) (s : UserSetting)
    (hcu : st.currentUser = some cu) (hs : st.userSetting = some s) :
    (updateUserSetting st sp mask (.ok resp)).requests
        = [.updateUserSettingReq { sp with name := some cu } mask]
    ∧ (resp.name = none →
        ((updateUserSetting st sp mask (.ok resp)).state.userSetting.map
          UserSetting.name) = some s.name)
    ∧ (resp.locale = none →
        ((updateUserSetting st sp mask (.ok resp)).state.userSetting.map
          UserSetting.locale) = some s.locale)
    ∧ (resp.appearance = none →
        ((updateUserSetting st sp mask (.ok resp)).state.userSetting.map
          UserSetting.appearance) = some s.appearance) := by
  refine ⟨?_, ?_, ?_, ?_⟩
  · simp [updateUserSetting, hcu]
  · intro hn
    simp [updateUserSetting, hcu, hs, spreadSetting, UserSetting.fromPatch, hn, Option.orElse]
  · intro hl
    simp [updateUserSetting, hcu, hs, spreadSetting, UserSetting.fromPatch, hl, Option.orElse]
  · intro ha
    simp [updateUserSetting, hcu, hs, spreadSetting, UserSetting.fromPatch, ha, Option.orElse]

/-- Prior cached settings with every field known. -/
def settingC5 : UserSetting := { name := "users/1", locale := "de", appearance := "light" }

/-- State with a current account and cached settings. -/
def stC5 : LocalState := { currentUser := some "users/1", userSetting := some settingC5 }

/-- Caller-supplied patch that tries to smuggle a foreign resource name. -/
def patchC5 : UserSettingPatch := { name := some "users/999", locale := some "fr" }

theorem updateUserSetting_forced_name_fieldwise_merge_witness :
    (updateUserSetting stC5 patchC5 ["locale"] (.ok {})).requests
        = [.updateUserSettingReq { patchC5 with name := some "users/1" } ["locale"]]
    ∧ ((updateUserSetting stC5 patchC5 ["locale"] (.ok {})).state.userSetting.map
        UserSetting.name) = some settingC5.name
    ∧ ((updateUserSetting stC5 patchC5 ["locale"] (.ok {})).state.userSetting.map
        UserSetting.locale) = some settingC5.locale
    ∧ ((updateUserSetting stC5 patchC5 ["locale"] (.ok {})).state.userSetting.map
        UserSetting.appearance) = some settingC5.appearance := by
  obtain ⟨h1, h2, h3, h4⟩ :=
    updateUserSetting_forced_name_fieldwise_merge stC5 patchC5 ["locale"] "users/1"
      {} settingC5 rfl rfl
  exact ⟨h1, h2 rfl, h3 rfl, h4 rfl⟩

theorem lookupKey_foldl_setKey_of_not_mem (l : List User)
    (m : List (String × User)) (k : String) (h : ∀ u ∈ l, u.name ≠ k) :
    lookupKey (l.foldl (fun m u => setKey m u.name u) m) k = lookupKey m k := by
  induction l generalizing m with
  | nil => rfl
  | cons a rest ih =>
    rw [List.foldl_cons, ih _ fun u hu => h u (List.mem_cons_of_mem _ hu)]
    exact lookupKey_setKey_ne _ _ _ _ (h a (List.mem_cons_self _ _))

theorem lookupKey_foldl_setKey_mem (l : List User) (m : List (String × User)) :
    ∀ u ∈ l, ∃ v ∈ l, v.name = u.name
      ∧ lookupKey (l.foldl (fun m u => setKey m u.name u) m) u.name = some v := by
  induction l generalizing m with
  | nil => intro u hu; cases hu
  | cons a rest ih =>
    intro u hu
    rw [List.foldl_cons]
    rcases List.mem_cons.mp hu with rfl | hu'
    · by_cases hc : ∀ w ∈ rest, w.name ≠ u.name
      · refine ⟨u, List.mem_cons_self _ _, rfl, ?_⟩
        rw [lookupKey_foldl_setKey_of_not_mem _ _ _ hc]
        exact lookupKey_setKey_self _ _ _
      · push_neg at hc
        obtain ⟨w, hw, hwname⟩ := hc
        obtain ⟨v, hv, hvname, hlook⟩ := ih (setKey m u.name u) w hw
        rw [hwname] at hlook
        exact ⟨v, List.mem_cons_of_mem _ hv, hvname.trans hwname, hlook⟩
    · obtain ⟨v, hv, hvname, hlook⟩ := ih (setKey m a.name a) u hu'
      exact ⟨v, List.mem_cons_of_mem _ hv, hvname, hlook⟩

/-- Claim C6: a successful `fetchUsers` inserts every returned entity keyed
by its own name and never removes an existing entry whose name is absent
from the response: such keys keep their prior value (additive merge). -/
theorem fetchUsers_additive (st : LocalState) (users : List User) :
    (∀ k, (∀ u ∈ users, u.name ≠ k) →
      lookupKey (fetchUsers st (.ok users)).state.userMapByName k
        = lookupKey st.userMapByName k)
    ∧ (∀ u ∈ users, ∃ v ∈ users, v.name = u.name
        ∧ lookupKey (fetchUsers st (.ok users)).state.userMapByName u.name = some v) := by
  constructor
  · intro k hk
    simpa [fetchUsers] using lookupKey_foldl_setKey_of_not_mem users st.userMapByName k hk
  · intro u hu
    simpa [fetchUsers] using lookupKey_foldl_setKey_mem users st.userMapByName u hu

/-- A user cached before the listing, absent from the response. -/
def userOldC6 : User := { name := "users/old", username := "olga", displayName := "Olga" }

/-- A stale cached copy of a user also present in the response. -/
def userStaleC6 : User := { name := "users/1", username := "alice", displayName := "Old" }

/-- The fresh listing response for that same user. -/
def userNewC6 : User := { name := "users/1", username := "alice", displayName := "New" }

/-- A brand-new user only present in the response. -/
def userFreshC6 : User := { name := "users/2", username := "bob", displayName := "Bob" }

/-- Cache contents before the listing call. -/
def stC6 : LocalState :=
  { userMapByName := [("users/old", userOldC6), ("users/1", userStaleC6)] }

/-- The listing response. -/
def usersC6 : List User := [userNewC6, userFreshC6]

theorem fetchUsers_additive_witness :
    lookupKey (fetchUsers stC6 (.ok usersC6)).state.userMapByName "users/old"
        = some userOldC6
    ∧ ∃ v ∈ usersC6, v.name = userNewC6.name
        ∧ lookupKey (fetchUsers stC6 (.ok usersC6)).state.userMapByName userNewC6.name
            = some v := by
  refine ⟨?_, (fetchUsers_additive stC6 usersC6).2 userNewC6 (by decide)⟩
  have h := (fetchUsers_additive stC6 usersC6).1 "users/old" (by decide)
  rw [h]
  decide

/-- Claim C4: whenever the remote call of a store operation fails, the error
is surfaced unchanged (as a remote error) and the state container is left
exactly as it was before the call; in particular after a failed
`deleteUser(name)` the prior value is still retrievable at that key. -/
theorem remote_error_leaves_state_unchanged (st : LocalState) (e : String)
    (n q cu : String) (up : UserPatch) (sp : UserSettingPatch) (ip : InboxPatch)
    (mask : List String) (rAll : Except String (List UserStats))
    (rOne : Except String UserStats) :
    (lookupKey st.userMapByName n = none →
      (getOrFetchUserByName st n (.error e)).state = st
      ∧ (getOrFetchUserByName st n (.error e)).result = .error (.remote e))
    ∧ ((objValues st.userMapByName).find? (fun u => u.username == q) = none →
      (getOrFetchUserByUsername st q (.error e)).state = st
      ∧ (getOrFetchUserByUsername st q (.error e)).result = .error (.remote e))
    ∧ ((fetchUsers st (.error e)).state = st
      ∧ (fetchUsers st (.error e)).result = .error (.remote e))
    ∧ ((updateUser st up mask (.error e)).state = st
      ∧ (updateUser st up mask (.error e)).result = .error (.remote e))
    ∧ ((deleteUser st n (.error e)).state = st
      ∧ (deleteUser st n (.error e)).result = .error (.remote e)
      ∧ getUserByName (deleteUser st n (.error e)).state n = getUserByName st n)
    ∧ (st.currentUser = some cu →
      (updateUserSetting st sp mask (.error e)).state = st
      ∧ (updateUserSetting st sp mask (.error e)).result = .error (.remote e))
    ∧ (st.currentUser = some cu →
      (fetchShortcuts st (.error e)).state = st
      ∧ (fetchShortcuts st (.error e)).result = .error (.remote e))
    ∧ (st.currentUser = some cu →
      (fetchInboxes st (.error e)).state = st
      ∧ (fetchInboxes st (.error e)).result = .error (.remote e))
    ∧ ((updateInbox st ip mask (.error e)).state = st
      ∧ (updateInbox st ip mask (.error e)).result = .error (.remote e))
    ∧ ((deleteInbox st n (.error e)).state = st
      ∧ (deleteInbox st n (.error e)).result = .error (.remote e))
    ∧ ((fetchUserStats st none (.error e) rOne).state = st
      ∧ (fetchUserStats st none (.error e) rOne).result = .error (.remote e))
    ∧ ((fetchUserStats st (some cu) rAll (.error e)).state = st
      ∧ (fetchUserStats st (some cu) rAll (.error e)).result = .error (.remote e)) := by
  refine ⟨?_, ?_, ?_, ?_, ?_, ?_, ?_, ?_, ?_, ?_, ?_, ?_⟩
  · intro h; simp [getOrFetchUserByName, h]
  · intro h; simp [getOrFetchUserByUsername, h]
  · simp [fetchUsers]
  · simp [updateUser]
  · simp [deleteUser]
  · intro h; simp [updateUserSetting, h]
  · intro h; simp [fetchShortcuts, h]
  · intro h; simp [fetchInboxes, h]
  · simp [updateInbox]
  · simp [deleteInbox]
  · simp [fetchUserStats]
  · simp [fetchUserStats]

/-- A cached user for the failed-operation scenarios. -/
def userC4 : User := { name := "users/1", username := "alice", displayName := "Alice" }

/-- State with a current account and one cached user; the key `users/9` is
absent and no cached username equals `ghost`. -/
def stC4 : LocalState :=
  { currentUser := some "users/1", userMapByName := [("users/1", userC4)] }

theorem remote_error_leaves_state_unchanged_witness :
    ((getOrFetchUserByName stC4 "users/9" (.error "boom")).state = stC4
      ∧ (getOrFetchUserByName stC4 "users/9" (.error "boom")).result
          = .error (.remote "boom"))
    ∧ ((getOrFetchUserByUsername stC4 "ghost" (.error "boom")).state = stC4
      ∧ (getOrFetchUserByUsername stC4 "ghost" (.error "boom")).result
          = .error (.remote "boom"))
    ∧ ((fetchUsers stC4 (.error "boom")).state = stC4)
    ∧ ((updateUser stC4 {} [] (.error "boom")).state = stC4)
    ∧ ((deleteUser stC4 "users/1" (.error "boom")).state = stC4
      ∧ getUserByName (deleteUser stC4 "users/1" (.error "boom")).state "users/1"
          = getUserByName stC4 "users/1")
    ∧ ((updateUserSetting stC4 {} [] (.error "boom")).state = stC4
      ∧ (updateUserSetting stC4 {} [] (.error "boom")).result = .error (.remote "boom"))
    ∧ ((fetchShortcuts stC4 (.error "boom")).state = stC4)
    ∧ ((fetchInboxes stC4 (.error "boom")).state = stC4)
    ∧ ((updateInbox stC4 {} [] (.error "boom")).state = stC4)
    ∧ ((deleteInbox stC4 "inboxes/1" (.error "boom")).state = stC4)
    ∧ ((fetchUserStats stC4 none (.error "boom") (.ok { name := "users/1", tagCount := [] })).state = stC4)
    ∧ ((fetchUserStats stC4 (some "users/1") (.ok []) (.error "boom")).state = stC4) := by
  obtain ⟨h1, h2, h3, h4, _, h6, h7, h8, h9, _, h11, h12⟩ :=
    remote_error_leaves_state_unchanged stC4 "boom" "users/9" "ghost" "users/1"
      {} {} {} [] (.ok []) (.ok { name := "users/1", tagCount := [] })
  obtain ⟨_, _, _, _, h5, _⟩ :=
    remote_error_leaves_state_unchanged stC4 "boom" "users/1" "ghost" "users/1"
      {} {} {} [] (.ok []) (.ok { name := "users/1", tagCount := [] })
  obtain ⟨_, _, _, _, _, _, _, _, _, h10, _⟩ :=
    remote_error_leaves_state_unchanged stC4 "boom" "inboxes/1" "ghost" "users/1"
      {} {} {} [] (.ok []) (.ok { name := "users/1", tagCount := [] })
  exact ⟨h1 (by decide), h2 (by decide), h3.1, h4.1, ⟨h5.1, h5.2.2⟩,
    h6 rfl, (h7 rfl).1, (h8 rfl).1, h9.1, h10.1, h11.1, h12.1⟩
